import Mathlib

/-!
Verification development for the cursive core: the component composition and
dispatch engine plus the controlling event loop.

The definitions below are a shallow embedding of the Rust sources:
* `cursive-core/src/cursive.rs` (the `Cursive` controller: event loop,
  dispatch, frame-rate policy, user data),
* `cursive-core/src/views/radio.rs` (`RadioGroup` / `RadioButton`),
* `src/views/enableable.rs` (the `Enableable` wrapper).

Machine integers (`u32`, `usize`) are modelled as `Nat`; the arithmetic in the
frame-rate policy (`1000 / 30 / fps`) stays far below `2^32`, so plain `Nat`
division coincides with the `u32` division of the source.  Interior-mutable
shared state (`Rc<RefCell<SharedState>>`) is modelled by passing the shared
record explicitly.  Boxed closures (`Box<dyn FnOnce(&mut Cursive)>`) are
modelled by an abstract callback alphabet `κ` together with an interpretation
function `interp : κ → state → state`, so that queues of callbacks can be
stored inside the state without positivity issues.

Parts of the repository that the controller uses but whose sources are not
part of the provided files (the `Event` enumeration, the `Menubar` view, the
backend trait, the `Printer`) are modelled from the specification; each such
definition carries a `Modelled from the spec:` note in its doc comment.
-/

namespace CursiveSpec

/-- Modelled from the spec: a position / size in characters (`Vec2` =
`XY<usize>`). -/
structure Vec2 where
  x : Nat
  y : Nat
deriving DecidableEq

/-- Modelled from the spec: key presses of the event vocabulary
(`event.rs` is not among the provided sources). -/
inductive Key
  | enter
  | esc
  | up
  | down
  | left
  | right
deriving DecidableEq

/-- Modelled from the spec: mouse buttons. -/
inductive MouseButton
  | left
  | middle
  | right
deriving DecidableEq

/-- Modelled from the spec: "mouse action (press/release/hold with button and
absolute position)". -/
inductive MouseEventKind
  | press (b : MouseButton)
  | release (b : MouseButton)
  | hold (b : MouseButton)
  | wheelUp
  | wheelDown
deriving DecidableEq

/-- Modelled from the spec: "Mouse events that grab focus (e.g., button
press)".  A button press grabs focus; releases, holds and wheel motion do
not. -/
def MouseEventKind.grabs_focus : MouseEventKind → Bool
  | .press _ => true
  | _ => false

/-- Modelled from the spec: the event vocabulary — "key press, printable
character, control-character chord, mouse action, window-resize notification,
synthetic refresh tick, exit/interrupt signal". -/
inductive Event
  | key (k : Key)
  | char (c : Char)
  | ctrlChar (c : Char)
  | mouse (event : MouseEventKind) (position : Vec2) (offset : Vec2)
  | windowResize
  | refresh
  | exit
deriving DecidableEq

/-- Modelled from the spec: `Event::relativized` translates the coordinates of
mouse events by the given top-left offset and leaves every other event
unchanged.  `Nat` subtraction truncates at zero. -/
def Event.relativized (e : Event) (ox oy : Nat) : Event :=
  match e with
  | .mouse me pos off => .mouse me ⟨pos.x - ox, pos.y - oy⟩ off
  | e => e

/-- `EventResult` from `event.rs`: either *Ignored* or *Consumed* with an
optional deferred callback.  The callback alphabet `κ` is abstract; its
meaning is given by an interpretation function where needed. -/
inductive EventResult (κ : Type)
  | Ignored
  | Consumed (cb : Option κ)

/-- Modelled from the spec (§4.6): the menu overlay's transient state.  The
four states Hidden / Visible-Unselected / Selected-Idle / Selected-Submenu are
encoded by the `autohide`, `selected` and `submenuOpen` flags. -/
structure Menubar where
  autohide : Bool
  selected : Bool
  submenuOpen : Bool
deriving DecidableEq

/-- `Menubar::receive_events`: the menubar consumes input exactly while it is
in a Selected state.  Modelled from the spec: "While in any Selected state,
the overlay consumes all input before the component tree sees it." -/
def Menubar.receive_events (m : Menubar) : Bool :=
  m.selected

/-- `Menubar::has_submenu`: whether a submenu is currently open.  Modelled
from the spec (§4.6). -/
def Menubar.has_submenu (m : Menubar) : Bool :=
  m.submenuOpen

/-- `Menubar::take_focus`: moves the overlay into a Selected state.  Modelled
from the spec: "a trigger event or a focus-grabbing mouse click at row 0 moves
Hidden/Visible → Selected". -/
def Menubar.take_focus (m : Menubar) : Menubar :=
  { m with selected := true }

/-- Modelled from the spec (§6): the backend capability contract.  `pending`
is the stream of input events `poll_event` will deliver; `refreshCount` counts
the `refresh()` (present) calls made so far. -/
structure Backend where
  pending : List Event
  refreshCount : Nat
deriving DecidableEq

/-- A closed universe of runtime types standing in for Rust's `TypeId`, used
to model `Box<dyn Any>` user data. -/
inductive UTag
  | unitT
  | natT
  | boolT
  | strT
  | listNatT
deriving DecidableEq

/-- The Lean type denoted by a type tag. -/
@[reducible]
def UTag.interp : UTag → Type
  | .unitT => Unit
  | .natT => Nat
  | .boolT => Bool
  | .strT => String
  | .listNatT => List Nat

/-- `Box<dyn Any>`: a value paired with its runtime type tag. -/
structure AnyBox where
  tag : UTag
  val : tag.interp

/-- `Box::downcast::<T>`: succeeds exactly when the stored tag matches the
requested one. -/
def AnyBox.downcast (t : UTag) (d : AnyBox) : Option t.interp :=
  if h : d.tag = t then some (h ▸ d.val) else none

/-- Downcasting at the stored tag recovers the stored value. -/
theorem AnyBox.downcast_mk (t : UTag) (v : t.interp) :
    AnyBox.downcast t ⟨t, v⟩ = some v := by
  unfold AnyBox.downcast
  rw [dif_pos rfl]

/-- How long we wait between two empty input polls (`INPUT_POLL_DELAY_MS` in
`cursive.rs`). -/
def INPUT_POLL_DELAY_MS : Nat := 30

/-- The `Cursive` controller state (`struct Cursive` in `cursive.rs`).

* `ρ` is the state of the root view (`OnEventView<ScreensView<StackView>>`),
  kept abstract: the claims below are about the controller, and quantify over
  the root view's behavior.
* `κ` is the abstract alphabet of boxed callbacks
  (`Box<dyn FnOnce(&mut Cursive) + Send>`); `cbQueue` models the
  `cb_source`/`cb_sink` channel contents.
* `theme` and `last_sizes` only influence colors and screen clearing during
  rendering; rendering output is represented by the backend's present counter
  and they are omitted. -/
structure Cursive (ρ κ : Type) where
  root : ρ
  menubar : Menubar
  running : Bool
  backend : Backend
  cbQueue : List κ
  userData : AnyBox
  fps : Option Nat
  boring_frame_count : Nat

/-- The type of handlers for the root view (`View::on_event` on the root):
given an event and the root view state, produce the new view state and an
`EventResult`. -/
def RootHandler (ρ κ : Type) : Type :=
  Event → ρ → ρ × EventResult κ

/-- The type of the menubar's event handler (`Menubar::on_event`); the menu
tree itself is an external collaborator, so the handler is abstract. -/
def MenubarHandler (κ : Type) : Type :=
  Event → Menubar → Menubar × EventResult κ

/-- The interpretation of callback labels as state transformers: `interp k`
is what running the boxed closure `k` against the controller does. -/
def CbInterp (ρ κ : Type) : Type :=
  κ → Cursive ρ κ → Cursive ρ κ

namespace Cursive

variable {ρ κ : Type}

/-- `Cursive::set_user_data`. -/
def set_user_data (t : UTag) (v : t.interp) (c : Cursive ρ κ) : Cursive ρ κ :=
  { c with userData := ⟨t, v⟩ }

/-- `Cursive::user_data`: attempts to access the stored user data at the
requested type. -/
def user_data (t : UTag) (c : Cursive ρ κ) : Option t.interp :=
  c.userData.downcast t

/-- `Cursive::take_user_data`: swap the stored data for a boxed unit value,
try to downcast it to the requested type, and put it back on failure. -/
def take_user_data (t : UTag) (c : Cursive ρ κ) :
    Option t.interp × Cursive ρ κ :=
  let ud := c.userData
  let c' := { c with userData := ⟨UTag.unitT, ()⟩ }
  match ud.downcast t with
  | some v => (some v, c')
  | none => (none, { c' with userData := ud })

/-- `Cursive::set_fps`: `self.fps = NonZeroU32::new(fps)` — zero disables the
frame-rate policy. -/
def set_fps (fps : Nat) (c : Cursive ρ κ) : Cursive ρ κ :=
  { c with fps := if fps = 0 then none else some fps }

/-- `Cursive::set_autohide_menu`. -/
def set_autohide_menu (autohide : Bool) (c : Cursive ρ κ) : Cursive ρ κ :=
  { c with menubar := { c.menubar with autohide := autohide } }

/-- `Cursive::select_menubar`: `self.menubar.take_focus(Direction::none())`. -/
def select_menubar (c : Cursive ρ κ) : Cursive ρ κ :=
  { c with menubar := c.menubar.take_focus }

/-- `Cursive::is_running`. -/
def is_running (c : Cursive ρ κ) : Bool :=
  c.running

/-- `Cursive::quit`: stops the event loop. -/
def quit (c : Cursive ρ κ) : Cursive ρ κ :=
  { c with running := false }

/-- The guard of the first block of `Cursive::on_event`: a focus-grabbing
mouse event at row 0, while the menubar is not auto-hidden and has no open
submenu, redirects focus to the menubar. -/
def menubar_grab (e : Event) (m : Menubar) : Bool :=
  match e with
  | .mouse me position _ =>
    me.grabs_focus && !m.autohide && !m.has_submenu && position.y == 0
  | _ => false

/-- `EventResult::process`: runs the attached deferred callback, if any,
against the controller. -/
def processResult (interp : CbInterp ρ κ) (r : EventResult κ)
    (c : Cursive ρ κ) : Cursive ρ κ :=
  match r with
  | .Consumed (some k) => interp k c
  | _ => c

/-- `Cursive::on_event` (`cursive.rs` lines 805–831):
* a focus-grabbing mouse event at row 0 (menubar visible, no submenu) selects
  the menubar;
* if the menubar receives events, the event goes to the menubar and the
  resulting deferred callback is processed;
* otherwise the event, relativized below the reserved menu row, goes to the
  root view, and a `Consumed` callback is run against the controller. -/
def on_event (interp : CbInterp ρ κ) (mOn : MenubarHandler κ)
    (rOn : RootHandler ρ κ) (e : Event) (c : Cursive ρ κ) : Cursive ρ κ :=
  let c := if menubar_grab e c.menubar then select_menubar c else c
  if c.menubar.receive_events then
    let mr := mOn e c.menubar
    processResult interp mr.2 { c with menubar := mr.1 }
  else
    let offset : Nat := if c.menubar.autohide then 0 else 1
    let vr := rOn (e.relativized 0 offset) c.root
    let c' := { c with root := vr.1 }
    match vr.2 with
    | .Consumed (some k) => interp k c'
    | _ => c'

/-- `Cursive::refresh` (`cursive.rs` lines 1008–1020): resets the idle-frame
counter, then runs layout, draw and the backend present.  Layout and draw are
pure rendering over the view tree; their occurrence is represented by the
backend present counter. -/
def refresh (c : Cursive ρ κ) : Cursive ρ κ :=
  { c with
    boring_frame_count := 0
    backend := { c.backend with refreshCount := c.backend.refreshCount + 1 } }

/-- Observable actions of one `post_events` call: whether a synthetic
`Event::Refresh` was dispatched, whether a layout+draw+present cycle ran, and
whether the call slept for the idle delay. -/
structure PostOut where
  sent_refresh : Bool
  refreshed : Bool
  slept : Bool
deriving DecidableEq

/-- `Cursive::post_events` (`cursive.rs` lines 979–1005): redraw if something
was received, or if the frame-rate policy's tolerated number of idle frames
`1000 / INPUT_POLL_DELAY_MS / fps` has been reached; an idle redraw is
preceded by a synthetic `Event::Refresh`.  An idle call then sleeps for the
poll delay and increments the idle-frame counter. -/
def post_events (interp : CbInterp ρ κ) (mOn : MenubarHandler κ)
    (rOn : RootHandler ρ κ) (received_something : Bool) (c : Cursive ρ κ) :
    Cursive ρ κ × PostOut :=
  let boring := !received_something
  let timeout :=
    match c.fps with
    | some fps => decide (1000 / INPUT_POLL_DELAY_MS / fps ≤ c.boring_frame_count)
    | none => false
  let do_draw := !boring || timeout
  let c :=
    if do_draw then
      let c := if boring then on_event interp mOn rOn Event.refresh c else c
      refresh c
    else c
  let c :=
    if boring then { c with boring_frame_count := c.boring_frame_count + 1 }
    else c
  (c, { sent_refresh := do_draw && boring, refreshed := do_draw, slept := boring })

/-- `Backend::poll_event`: non-blocking poll for at most one pending input
event.  Modelled from the spec (§6). -/
def poll_event (c : Cursive ρ κ) : Option (Event × Cursive ρ κ) :=
  match c.backend.pending with
  | [] => none
  | e :: rest => some (e, { c with backend := { c.backend with pending := rest } })

/-- `Receiver::try_recv` on the callback channel: dequeue the oldest queued
callback, without blocking.  Modelled from the spec (§4.8): FIFO arrival
order. -/
def try_recv (c : Cursive ρ κ) : Option (κ × Cursive ρ κ) :=
  match c.cbQueue with
  | [] => none
  | k :: rest => some (k, { c with cbQueue := rest })

/-- Second loop of `Cursive::process_events`: drain the callback channel
without blocking; after each callback, return `true` at once if `running`
became false.  A dispatched handler may itself enqueue more work, so the live
loop of the source is given a fuel bound; `none` means the fuel ran out with
the queue still non-empty. -/
def process_cb_loop (interp : CbInterp ρ κ) :
    Nat → Bool → Cursive ρ κ → Option (Bool × Cursive ρ κ)
  | 0, boring, c =>
    match try_recv c with
    | none => some (!boring, c)
    | some _ => none
  | fuel + 1, boring, c =>
    match try_recv c with
    | none => some (!boring, c)
    | some (k, c1) =>
      let c2 := interp k c1
      if c2.running then process_cb_loop interp fuel false c2
      else some (true, c2)

/-- First loop of `Cursive::process_events`: poll the backend for at most one
pending input event at a time and dispatch it through `on_event`; after each
event, return `true` at once if `running` became false.  When the poll comes
back empty, fall through to the callback drain. -/
def process_event_loop (interp : CbInterp ρ κ) (mOn : MenubarHandler κ)
    (rOn : RootHandler ρ κ) :
    Nat → Bool → Cursive ρ κ → Option (Bool × Cursive ρ κ)
  | 0, boring, c =>
    match poll_event c with
    | none => process_cb_loop interp 0 boring c
    | some _ => none
  | fuel + 1, boring, c =>
    match poll_event c with
    | none => process_cb_loop interp (fuel + 1) boring c
    | some (e, c1) =>
      let c2 := on_event interp mOn rOn e c1
      if c2.running then process_event_loop interp mOn rOn fuel false c2
      else some (true, c2)

/-- `Cursive::process_events` (`cursive.rs` lines 942–967): handle all
available input, then handle all available callbacks; things are boring if
nothing significant happened.  Returns `some (received_something, state)`, or
`none` if the fuel was insufficient. -/
def process_events (interp : CbInterp ρ κ) (mOn : MenubarHandler κ)
    (rOn : RootHandler ρ κ) (fuel : Nat) (c : Cursive ρ κ) :
    Option (Bool × Cursive ρ κ) :=
  process_event_loop interp mOn rOn fuel true c

/-- `Cursive::step` (`cursive.rs` lines 921–925): `process_events`, then
`post_events` with its result; returns whether something was received. -/
def step (interp : CbInterp ρ κ) (mOn : MenubarHandler κ)
    (rOn : RootHandler ρ κ) (fuel : Nat) (c : Cursive ρ κ) :
    Option (Bool × Cursive ρ κ) :=
  match process_events interp mOn rOn fuel c with
  | none => none
  | some (received, c1) =>
    some (received, (post_events interp mOn rOn received c1).1)

/-- The `while self.running { self.step(); }` loop of `Cursive::run`,
bounded by a fuel count of loop iterations. -/
def run_loop (interp : CbInterp ρ κ) (mOn : MenubarHandler κ)
    (rOn : RootHandler ρ κ) (fuelP : Nat) :
    Nat → Cursive ρ κ → Option (Cursive ρ κ)
  | 0, c =>
    if c.running then none else some c
  | fuel + 1, c =>
    if c.running then
      match step interp mOn rOn fuelP c with
      | none => none
      | some (_, c') => run_loop interp mOn rOn fuelP fuel c'
    else some c

/-- `Cursive::run` (`cursive.rs` lines 901–910): set `running`, refresh once,
then step until `running` is false. -/
def run (interp : CbInterp ρ κ) (mOn : MenubarHandler κ)
    (rOn : RootHandler ρ κ) (fuelP fuelR : Nat) (c : Cursive ρ κ) :
    Option (Cursive ρ κ) :=
  let c := { c with running := true }
  let c := refresh c
  run_loop interp mOn rOn fuelP fuelR c

end Cursive

/-- The spec's description of the first half of `process_events`: dispatch
each currently pending backend event, one at a time in arrival order (the
event being dispatched has already been taken off the backend queue). -/
def spec_dispatch_all_events (interp : CbInterp ρ κ) (mOn : MenubarHandler κ)
    (rOn : RootHandler ρ κ) : List Event → Cursive ρ κ → Cursive ρ κ
  | [], c => c
  | e :: rest, c =>
    spec_dispatch_all_events interp mOn rOn rest
      (Cursive.on_event interp mOn rOn e
        { c with backend := { c.backend with pending := rest } })

/-- The spec's description of the second half of `process_events`: drain the
currently queued cross-thread callbacks in FIFO order, invoking each against
the controller (the callback being run has already been dequeued). -/
def spec_drain_all_callbacks (interp : CbInterp ρ κ) :
    List κ → Cursive ρ κ → Cursive ρ κ
  | [], c => c
  | k :: rest, c =>
    spec_drain_all_callbacks interp rest (interp k { c with cbQueue := rest })

/-- Modelled from the spec: the slice of the `Printer` relevant here — its
`enabled` flag, which selects the "inactive" style when cleared
(`printer.rs` is not among the provided sources). -/
structure Printer where
  enabled : Bool
  focused : Bool
deriving DecidableEq

/-- `Printer::enabled(self, enabled)`: returns a printer that draws in the
inactive style when `b` is false.  Modelled from the spec: "draws the inner
component in a visually distinct inactive style". -/
def Printer.with_enabled (p : Printer) (b : Bool) : Printer :=
  { p with enabled := p.enabled && b }

/-- The capability interface of an arbitrary inner component, as seen by a
wrapper: input handling, drawing (producing an opaque rendering `δ`), and the
`required_size` half of size negotiation. -/
structure ViewImpl (σ κ δ : Type) where
  on_event : Event → σ → σ × EventResult κ
  draw : Printer → σ → δ
  required_size : Vec2 → σ → σ × Vec2

/-- `Enableable<V>` (`src/views/enableable.rs`): a wrapper around another view
that can be enabled or disabled at will. -/
structure Enableable (σ : Type) where
  view : σ
  enabled : Bool

namespace Enableable

variable {σ κ δ : Type}

/-- `Enableable::new`: enabled by default. -/
def new (view : σ) : Enableable σ :=
  { view := view, enabled := true }

/-- `impl_enabled!`: query the enabled flag. -/
def is_enabled (s : Enableable σ) : Bool :=
  s.enabled

/-- `impl_enabled!`: set the enabled flag. -/
def set_enabled (s : Enableable σ) (enabled : Bool) : Enableable σ :=
  { s with enabled := enabled }

/-- `Enableable::wrap_on_event`: forward the event to the inner view only
while enabled; otherwise return `Ignored` without touching the inner view. -/
def wrap_on_event (V : ViewImpl σ κ δ) (s : Enableable σ) (e : Event) :
    Enableable σ × EventResult κ :=
  if s.enabled then
    let vr := V.on_event e s.view
    ({ s with view := vr.1 }, vr.2)
  else
    (s, EventResult.Ignored)

/-- `Enableable::wrap_draw`: always draw the inner view, through a printer
whose enabled flag carries the wrapper's flag. -/
def wrap_draw (V : ViewImpl σ κ δ) (s : Enableable σ) (p : Printer) : δ :=
  V.draw (p.with_enabled s.enabled) s.view

/-- The `ViewWrapper` default for size negotiation, which `Enableable` does
not override: forward `required_size` to the inner view unchanged.  Modelled
from the spec: "a wrapper owns exactly one inner component and by default
forwards every capability operation unchanged". -/
def wrap_required_size (V : ViewImpl σ κ δ) (s : Enableable σ) (req : Vec2) :
    Enableable σ × Vec2 :=
  let vr := V.required_size req s.view
  ({ s with view := vr.1 }, vr.2)

end Enableable

/-- `SharedState<T>` (`radio.rs`): the state shared by reference among all the
buttons of a `RadioGroup` — current selection index, registered values, and
the optional change-notification callback.  The callback
(`Rc<dyn Fn(&mut Cursive, &T)>`) is kept as an abstract label `κ`. -/
structure SharedState (T κ : Type) where
  selection : Nat
  values : List T
  on_change : Option κ

/-- `SharedState::selection()`: the value registered at the current selection
index.  The source indexes `values[selection]` directly; out-of-range access
(impossible for buttons created through `RadioGroup::button`) is `none`
here. -/
def SharedState.selectionValue {T κ : Type} (s : SharedState T κ) : Option T :=
  s.values.get? s.selection

/-- `RadioGroup::new` (the shared part): empty value list, selection 0, no
change callback. -/
def RadioGroup.new (T κ : Type) : SharedState T κ :=
  { selection := 0, values := [], on_change := none }

/-- `RadioGroup::selected_id`: the id of the selected button. -/
def RadioGroup.selected_id {T κ : Type} (s : SharedState T κ) : Nat :=
  s.selection

/-- `RadioGroup::set_on_change`. -/
def RadioGroup.set_on_change {T κ : Type} (s : SharedState T κ) (f : κ) :
    SharedState T κ :=
  { s with on_change := some f }

/-- `RadioButton<T>` (`radio.rs`): one member of an exclusive-selection
family; it stores its id in the shared family and its own flags.  The shared
`Rc<RefCell<SharedState>>` is passed explicitly to the operations. -/
structure RadioButton where
  id : Nat
  enabled : Bool
  label : String

/-- `RadioGroup::button`: registers the new value and hands out a button
whose id is the previous number of values. -/
def RadioGroup.button {T κ : Type} (s : SharedState T κ) (value : T)
    (label : String) : SharedState T κ × RadioButton :=
  let count := s.values.length
  ({ s with values := s.values ++ [value] },
   { id := count, enabled := true, label := label })

/-- `RadioButton::is_selected`: whether the shared selection index equals this
button's id. -/
def RadioButton.is_selected {T κ : Type} (b : RadioButton)
    (s : SharedState T κ) : Bool :=
  s.selection == b.id

/-- `RadioButton::select` (`radio.rs` lines 169–179): set the shared
selection index to this button's id, then, if a change callback is
registered, return a `Consumed` result carrying that callback together with
the *new* selection's value; otherwise `Consumed(None)`. -/
def RadioButton.select {T κ : Type} (b : RadioButton) (s : SharedState T κ) :
    SharedState T κ × EventResult (κ × Option T) :=
  let s := { s with selection := b.id }
  match s.on_change with
  | some f => (s, EventResult.Consumed (some (f, s.selectionValue)))
  | none => (s, EventResult.Consumed none)

/-!  Concrete instances used to exercise the theorems on closed inputs. -/

/-- A trivial callback interpretation: every callback is a no-op. -/
def idInterp : CbInterp Unit Unit := fun _ c => c

/-- A menubar handler that ignores every event. -/
def ignoreMenubar : MenubarHandler Unit := fun _ m => (m, EventResult.Ignored)

/-- A root handler that ignores every event. -/
def ignoreRoot : RootHandler Unit Unit := fun _ v => (v, EventResult.Ignored)

/-- A freshly constructed menubar: autohidden, unselected, no open submenu. -/
def sampleMenubar : Menubar :=
  { autohide := true, selected := false, submenuOpen := false }

/-- A controller state with no pending input, no queued callbacks, and the
given frame-rate setting and idle-frame counter. -/
def sampleC (fps : Option Nat) (count : Nat) : Cursive Unit Unit :=
  { root := ()
    menubar := sampleMenubar
    running := true
    backend := { pending := [], refreshCount := 0 }
    cbQueue := []
    userData := ⟨UTag.unitT, ()⟩
    fps := fps
    boring_frame_count := count }


/-!  ## Claims -/

/-- Claim C1, counterexample: with the frame-rate policy disabled
(`fps = none`) an idle `post_events` call does **not** perform a
layout+draw+present cycle — contrary to the claim that it always redraws.  On
a concrete idle controller with `fps` disabled, `post_events false` reports no
refresh and leaves the backend's present counter untouched. -/
theorem post_events_idle_no_fps_skips_draw :
    (sampleC none 0).fps = none ∧
    (Cursive.post_events idInterp ignoreMenubar ignoreRoot false
        (sampleC none 0)).2.refreshed = false ∧
    (Cursive.post_events idInterp ignoreMenubar ignoreRoot false
        (sampleC none 0)).1.backend.refreshCount
      = (sampleC none 0).backend.refreshCount := by
  refine ⟨rfl, rfl, rfl⟩

/-- Claim C1, amended: with the frame-rate policy disabled (`fps = none`), an
idle `post_events` call never redraws: it dispatches no synthetic refresh,
performs no layout+draw+present cycle, sleeps for the poll delay, and merely
increments the idle-frame counter. -/
theorem post_events_idle_no_fps {ρ κ : Type} (interp : CbInterp ρ κ)
    (mOn : MenubarHandler κ) (rOn : RootHandler ρ κ) (c : Cursive ρ κ)
    (h : c.fps = none) :
    Cursive.post_events interp mOn rOn false c =
      ({ c with boring_frame_count := c.boring_frame_count + 1 },
       { sent_refresh := false, refreshed := false, slept := true }) := by
  simp [Cursive.post_events, h]

/-- Witness for `post_events_idle_no_fps` at a concrete idle controller. -/
theorem post_events_idle_no_fps_witness :
    (sampleC none 5).fps = none ∧
    Cursive.post_events idInterp ignoreMenubar ignoreRoot false (sampleC none 5) =
      ({ sampleC none 5 with boring_frame_count := 6 },
       { sent_refresh := false, refreshed := false, slept := true }) := by
  exact ⟨rfl, post_events_idle_no_fps idInterp ignoreMenubar ignoreRoot (sampleC none 5) rfl⟩

/-- Claim C2, counterexample: the code computes the idle-frame threshold as
`1000 / 30 / F` in integer arithmetic with no `max 1` clamp.  For `F = 34`
that threshold is `0`, so an idle `post_events` call redraws immediately at
idle-frame counter `0`, even though the claimed threshold
`max 1 (1000 / 30 / 34) = 1` has not been reached. -/
theorem post_events_threshold_no_clamp :
    (sampleC (some 34) 0).boring_frame_count < max 1 (1000 / INPUT_POLL_DELAY_MS / 34) ∧
    (Cursive.post_events idInterp ignoreMenubar ignoreRoot false
        (sampleC (some 34) 0)).2.refreshed = true := by
  exact ⟨by decide, rfl⟩

/-- Claim C2, amended: for a target frame rate `F ≥ 1` set via `set_fps`, the
idle-frame threshold is `1000 / INPUT_POLL_DELAY_MS / F` in integer
arithmetic, with **no** lower clamp to 1 (so it is `0` for `F ≥ 34` and every
idle cycle then redraws).  Below the threshold an idle `post_events` performs
no redraw and just increments the idle counter; at or above it, exactly one
redraw occurs, preceded by a synthetic `Refresh` event, and the redraw resets
the idle counter to zero (the counter then ends the idle cycle at 1 after its
end-of-cycle increment).  For `1 ≤ F ≤ 33` this threshold agrees with the
claimed `max 1 (1000 / 30 / F)`. -/
theorem post_events_idle_threshold {ρ κ : Type} (interp : CbInterp ρ κ)
    (mOn : MenubarHandler κ) (rOn : RootHandler ρ κ) (F : Nat)
    (c : Cursive ρ κ) (hfps : c.fps = some F) (hF : 1 ≤ F) :
    (c.boring_frame_count < 1000 / INPUT_POLL_DELAY_MS / F →
      Cursive.post_events interp mOn rOn false c =
        ({ c with boring_frame_count := c.boring_frame_count + 1 },
         { sent_refresh := false, refreshed := false, slept := true })) ∧
    (1000 / INPUT_POLL_DELAY_MS / F ≤ c.boring_frame_count →
      (Cursive.post_events interp mOn rOn false c).2 =
        { sent_refresh := true, refreshed := true, slept := true } ∧
      (Cursive.post_events interp mOn rOn false c).1.boring_frame_count = 1) ∧
    (F ≤ 33 →
      1000 / INPUT_POLL_DELAY_MS / F = max 1 (1000 / INPUT_POLL_DELAY_MS / F)) := by
  refine ⟨?_, ?_, ?_⟩
  · intro hlt
    simp [Cursive.post_events, hfps, decide_eq_false (not_le.mpr hlt)]
  · intro hge
    simp [Cursive.post_events, hfps, decide_eq_true hge, Cursive.refresh]
  · intro h33
    have h1 : 1 ≤ 1000 / INPUT_POLL_DELAY_MS / F := by
      rw [Nat.le_div_iff_mul_le (Nat.lt_of_lt_of_le Nat.zero_lt_one hF)]
      simpa [INPUT_POLL_DELAY_MS] using h33
    exact (Nat.max_eq_right h1).symm

/-- Witness for `post_events_idle_threshold`: at `F = 2` the threshold is 16;
an idle call at counter 20 redraws and leaves the counter at 1, an idle call
at counter 5 does not redraw, and the threshold agrees with the claimed
clamped formula. -/
theorem post_events_idle_threshold_witness :
    (sampleC (some 2) 20).fps = some 2 ∧ 1 ≤ 2 ∧
    ((Cursive.post_events idInterp ignoreMenubar ignoreRoot false
        (sampleC (some 2) 20)).2 =
      { sent_refresh := true, refreshed := true, slept := true } ∧
     (Cursive.post_events idInterp ignoreMenubar ignoreRoot false
        (sampleC (some 2) 20)).1.boring_frame_count = 1) ∧
    Cursive.post_events idInterp ignoreMenubar ignoreRoot false (sampleC (some 2) 5) =
      ({ sampleC (some 2) 5 with boring_frame_count := 6 },
       { sent_refresh := false, refreshed := false, slept := true }) ∧
    1000 / INPUT_POLL_DELAY_MS / 2 = max 1 (1000 / INPUT_POLL_DELAY_MS / 2) := by
  refine ⟨rfl, by decide, ?_, ?_, ?_⟩
  · exact (post_events_idle_threshold idInterp ignoreMenubar ignoreRoot 2
      (sampleC (some 2) 20) rfl (by decide)).2.1 (by decide)
  · exact (post_events_idle_threshold idInterp ignoreMenubar ignoreRoot 2
      (sampleC (some 2) 5) rfl (by decide)).1 (by decide)
  · exact (post_events_idle_threshold idInterp ignoreMenubar ignoreRoot 2
      (sampleC (some 2) 5) rfl (by decide)).2.2 (by decide)

/-- Claim C10: `take_user_data` is atomic on failure.  Requesting a type
different from the stored one returns `none` and leaves the controller
unchanged (a later `user_data` query at the original type still finds the
value); requesting the stored type returns the value and replaces the stored
data with the boxed unit value. -/
theorem take_user_data_atomic {ρ κ : Type} (c : Cursive ρ κ) (t t' : UTag) :
    (c.userData.tag = t' → t' ≠ t →
      Cursive.take_user_data t c = (none, c) ∧
      Cursive.user_data t' (Cursive.take_user_data t c).2 =
        Cursive.user_data t' c) ∧
    (∀ (v : t.interp), c.userData = ⟨t, v⟩ →
      Cursive.take_user_data t c =
        (some v, { c with userData := ⟨UTag.unitT, ()⟩ })) := by
  constructor
  · intro htag hne
    have hd : c.userData.downcast t = none := by
      unfold AnyBox.downcast
      rw [dif_neg]
      rw [htag]
      exact hne
    constructor
    · simp [Cursive.take_user_data, hd]
    · simp [Cursive.take_user_data, hd]
  · intro v hv
    cases c
    cases hv
    simp [Cursive.take_user_data, AnyBox.downcast_mk]

/-- Witness for `take_user_data_atomic`: store a `Nat`, fail to take it as a
`Bool` (nothing changes, the `Nat` is still there), then take it as a `Nat`. -/
theorem take_user_data_atomic_witness :
    (Cursive.set_user_data UTag.natT (5 : Nat) (sampleC none 0)).userData.tag
      = UTag.natT ∧
    UTag.natT ≠ UTag.boolT ∧
    Cursive.take_user_data UTag.boolT
        (Cursive.set_user_data UTag.natT (5 : Nat) (sampleC none 0)) =
      (none, Cursive.set_user_data UTag.natT (5 : Nat) (sampleC none 0)) ∧
    Cursive.user_data UTag.natT
        (Cursive.take_user_data UTag.boolT
          (Cursive.set_user_data UTag.natT (5 : Nat) (sampleC none 0))).2 =
      some 5 ∧
    Cursive.take_user_data UTag.natT
        (Cursive.set_user_data UTag.natT (5 : Nat) (sampleC none 0)) =
      (some 5,
       { Cursive.set_user_data UTag.natT (5 : Nat) (sampleC none 0) with
          userData := ⟨UTag.unitT, ()⟩ }) := by
  have h := take_user_data_atomic
    (Cursive.set_user_data UTag.natT (5 : Nat) (sampleC none 0)) UTag.boolT UTag.natT
  have h2 := take_user_data_atomic
    (Cursive.set_user_data UTag.natT (5 : Nat) (sampleC none 0)) UTag.natT UTag.natT
  refine ⟨rfl, by decide, (h.1 rfl (by decide)).1, ?_, h2.2 5 rfl⟩
  exact ((h.1 rfl (by decide)).2).trans rfl

/-- Claim C7: selecting a radio button sets the group's shared selection
index to that button's id; afterwards `is_selected` holds for it and fails
for every other button of the family, `selected_id` reports its id, and
buttons created through `RadioGroup::button` get pairwise distinct ids (the
previous number of registered values). -/
theorem radio_select_exclusive {T κ : Type} (s : SharedState T κ)
    (b b' : RadioButton) (hne : b'.id ≠ b.id) :
    RadioGroup.selected_id (b.select s).1 = b.id ∧
    b.is_selected (b.select s).1 = true ∧
    b'.is_selected (b.select s).1 = false ∧
    (∀ (v : T) (l : String), (RadioGroup.button s v l).2.id = s.values.length) := by
  have hsel : (b.select s).1.selection = b.id := by
    unfold RadioButton.select
    cases s.on_change <;> rfl
  refine ⟨hsel, ?_, ?_, fun v l => rfl⟩
  · simp [RadioButton.is_selected, hsel]
  · simp only [RadioButton.is_selected, hsel]
    rw [beq_eq_false_iff_ne]
    exact fun h => hne h.symm

/-- Witness for `radio_select_exclusive` on a two-button family. -/
theorem radio_select_exclusive_witness :
    (0 : Nat) ≠ 1 ∧
    RadioGroup.selected_id
      ((RadioButton.mk 1 true "b1").select
        (SharedState.mk 0 [10, 20] (none : Option Unit))).1 = 1 ∧
    (RadioButton.mk 1 true "b1").is_selected
      ((RadioButton.mk 1 true "b1").select
        (SharedState.mk 0 [10, 20] (none : Option Unit))).1 = true ∧
    (RadioButton.mk 0 true "b0").is_selected
      ((RadioButton.mk 1 true "b1").select
        (SharedState.mk 0 [10, 20] (none : Option Unit))).1 = false ∧
    (RadioGroup.button (SharedState.mk 0 [10, 20] (none : Option Unit))
      (30 : Nat) "b2").2.id = 2 := by
  have h := radio_select_exclusive (SharedState.mk 0 [10, 20] (none : Option Unit))
    (RadioButton.mk 1 true "b1") (RadioButton.mk 0 true "b0") (by decide)
  exact ⟨by decide, h.1, h.2.1, h.2.2.1, h.2.2.2 30 "b2"⟩

/-- Claim C6: a disabled `Enableable` wrapper returns `Ignored` for every
event without invoking the inner view (its state is unchanged), while `draw`
— in the inactive style — and size negotiation are still forwarded to the
inner view regardless of the enabled flag. -/
theorem enableable_disabled_ignores_events {σ κ δ : Type} (V : ViewImpl σ κ δ)
    (s : Enableable σ) (e : Event) (p : Printer) (req : Vec2)
    (hdis : s.enabled = false) :
    Enableable.wrap_on_event V s e = (s, EventResult.Ignored) ∧
    Enableable.wrap_draw V s p = V.draw { p with enabled := false } s.view ∧
    (∀ (s' : Enableable σ),
      Enableable.wrap_draw V s' p = V.draw (p.with_enabled s'.enabled) s'.view ∧
      Enableable.wrap_required_size V s' req =
        ({ s' with view := (V.required_size req s'.view).1 },
         (V.required_size req s'.view).2)) := by
  refine ⟨?_, ?_, fun s' => ⟨rfl, rfl⟩⟩
  · simp [Enableable.wrap_on_event, hdis]
  · simp [Enableable.wrap_draw, Printer.with_enabled, hdis]

/-- Witness for `enableable_disabled_ignores_events` on a concrete disabled
wrapper around a counter view. -/
theorem enableable_disabled_ignores_events_witness :
    (Enableable.mk (7 : Nat) false).enabled = false ∧
    Enableable.wrap_on_event
        (ViewImpl.mk (κ := Unit)
          (fun _ v => (v + 1, EventResult.Consumed none))
          (fun p v => if p.enabled then v else 0)
          (fun r v => (v, r)))
        (Enableable.mk (7 : Nat) false) (Event.char 'x') =
      (Enableable.mk (7 : Nat) false, EventResult.Ignored) ∧
    Enableable.wrap_draw
        (ViewImpl.mk (κ := Unit)
          (fun _ v => (v + 1, EventResult.Consumed none))
          (fun p v => if p.enabled then v else 0)
          (fun r v => (v, r)))
        (Enableable.mk (7 : Nat) false) (Printer.mk true true) = 0 := by
  have h := enableable_disabled_ignores_events
    (ViewImpl.mk (κ := Unit)
      (fun _ v => (v + 1, EventResult.Consumed none))
      (fun p v => if p.enabled then v else 0)
      (fun r v => (v, r)))
    (Enableable.mk (7 : Nat) false) (Event.char 'x') (Printer.mk true true)
    (Vec2.mk 3 4) rfl
  exact ⟨rfl, h.1, (h.2.1).trans rfl⟩

/-- Claim C3: whenever the menubar is in a Selected state
(`receive_events() = true`), `on_event` delivers the event to the menubar
only.  The result equals the menubar-dispatch path and is independent of the
root view's handler — the root view never receives the event. -/
theorem on_event_menubar_captures {ρ κ : Type} (interp : CbInterp ρ κ)
    (mOn : MenubarHandler κ) (rOn rOn' : RootHandler ρ κ) (e : Event)
    (c : Cursive ρ κ) (hsel : c.menubar.receive_events = true) :
    Cursive.on_event interp mOn rOn e c =
      (Cursive.processResult interp
        (mOn e (if Cursive.menubar_grab e c.menubar then
                  Cursive.select_menubar c else c).menubar).2
        { (if Cursive.menubar_grab e c.menubar then
            Cursive.select_menubar c else c) with
          menubar := (mOn e (if Cursive.menubar_grab e c.menubar then
                        Cursive.select_menubar c else c).menubar).1 }) ∧
    Cursive.on_event interp mOn rOn e c = Cursive.on_event interp mOn rOn' e c := by
  have key : ∀ (r : RootHandler ρ κ),
      Cursive.on_event interp mOn r e c =
        (Cursive.processResult interp
          (mOn e (if Cursive.menubar_grab e c.menubar then
                    Cursive.select_menubar c else c).menubar).2
          { (if Cursive.menubar_grab e c.menubar then
              Cursive.select_menubar c else c) with
            menubar := (mOn e (if Cursive.menubar_grab e c.menubar then
                          Cursive.select_menubar c else c).menubar).1 }) := by
    intro r
    unfold Cursive.on_event
    by_cases hg : Cursive.menubar_grab e c.menubar
    · simp [hg, Cursive.select_menubar, Menubar.take_focus, Menubar.receive_events]
    · simp [hg, hsel]
  exact ⟨key rOn, (key rOn).trans (key rOn').symm⟩

/-- Witness for `on_event_menubar_captures` with a selected menubar and two
different root handlers. -/
theorem on_event_menubar_captures_witness :
    ({ sampleC none 0 with
        menubar := Menubar.mk false true false } : Cursive Unit Unit).menubar.receive_events
      = true ∧
    Cursive.on_event idInterp ignoreMenubar ignoreRoot (Event.char 'a')
        { sampleC none 0 with menubar := Menubar.mk false true false } =
      Cursive.on_event idInterp ignoreMenubar
        (fun _ v => (v, EventResult.Consumed none)) (Event.char 'a')
        { sampleC none 0 with menubar := Menubar.mk false true false } := by
  exact ⟨rfl,
    (on_event_menubar_captures idInterp ignoreMenubar ignoreRoot
      (fun _ v => (v, EventResult.Consumed none)) (Event.char 'a')
      { sampleC none 0 with menubar := Menubar.mk false true false } rfl).2⟩

/-- Claim C8: `RadioButton::select` synchronously updates the shared
selection state *before* packaging the change notification — the callback
returned in the `Consumed` result carries the registered `on_change` callback
together with the value at the **new** selection index — and the dispatcher
(`Cursive::on_event`) executes a `Consumed` deferred callback against the
controller before returning, so an observer looking up the state from the
callback sees the new selection. -/
theorem radio_select_notifies_before_return :
    (∀ (T κ : Type) (b : RadioButton) (s : SharedState T κ) (f : κ),
      s.on_change = some f →
      (b.select s).1.selection = b.id ∧
      (b.select s).1.values = s.values ∧
      (b.select s).2 = EventResult.Consumed (some (f, s.values.get? b.id))) ∧
    (∀ (ρ κ : Type) (interp : CbInterp ρ κ) (mOn : MenubarHandler κ)
      (rOn : RootHandler ρ κ) (e : Event) (c : Cursive ρ κ) (v' : ρ) (k : κ),
      Cursive.menubar_grab e c.menubar = false →
      c.menubar.receive_events = false →
      rOn (e.relativized 0 (if c.menubar.autohide then 0 else 1)) c.root =
        (v', EventResult.Consumed (some k)) →
      Cursive.on_event interp mOn rOn e c = interp k { c with root := v' }) := by
  constructor
  · intro T κ b s f hf
    refine ⟨?_, ?_, ?_⟩ <;>
      simp [RadioButton.select, hf, SharedState.selectionValue]
  · intro ρ κ interp mOn rOn e c v' k hg hr hE
    simp [Cursive.on_event, hg, hr, hE]

/-- Witness for `radio_select_notifies_before_return`: selecting button 1 of
a two-value family with a registered callback yields the callback paired with
the new selection's value, and a root handler returning a `Consumed` callback
has that callback executed within `on_event`. -/
theorem radio_select_notifies_before_return_witness :
    (SharedState.mk 0 [10, 20] (some ())).on_change = some () ∧
    ((RadioButton.mk 1 true "b1").select
        (SharedState.mk 0 [10, 20] (some ()))).1.selection = 1 ∧
    ((RadioButton.mk 1 true "b1").select
        (SharedState.mk 0 [10, 20] (some ()))).2 =
      EventResult.Consumed (some ((), some (20 : Nat))) ∧
    Cursive.on_event idInterp ignoreMenubar
        (fun _ v => (v, EventResult.Consumed (some ()))) (Event.char 'a')
        (sampleC none 0) =
      idInterp () { sampleC none 0 with root := () } := by
  have h1 := radio_select_notifies_before_return.1 Nat Unit
    (RadioButton.mk 1 true "b1") (SharedState.mk 0 [10, 20] (some ())) () rfl
  have h2 := radio_select_notifies_before_return.2 Unit Unit idInterp
    ignoreMenubar (fun _ v => (v, EventResult.Consumed (some ())))
    (Event.char 'a') (sampleC none 0) () () rfl rfl rfl
  exact ⟨rfl, h1.1, h1.2.2, h2⟩

/-- Claim C4: the instant a dispatched input event or a drained callback sets
the running flag to false, `process_events` returns `true` immediately: the
returned state is exactly the one the killing handler produced, with the
remaining input events and queued callbacks left untouched.  (Every loop
iteration starts from a state of this shape, so the two cases cover a kill at
any position in either queue.) -/
theorem process_events_stops_on_quit {ρ κ : Type} (interp : CbInterp ρ κ)
    (mOn : MenubarHandler κ) (rOn : RootHandler ρ κ) (fuel : Nat)
    (c : Cursive ρ κ) :
    (∀ (e : Event) (rest : List Event),
      c.backend.pending = e :: rest →
      c.running = true →
      (Cursive.on_event interp mOn rOn e
        { c with backend := { c.backend with pending := rest } }).running = false →
      Cursive.process_events interp mOn rOn (fuel + 1) c =
        some (true, Cursive.on_event interp mOn rOn e
          { c with backend := { c.backend with pending := rest } })) ∧
    (∀ (k : κ) (rest : List κ),
      c.backend.pending = [] →
      c.cbQueue = k :: rest →
      c.running = true →
      (interp k { c with cbQueue := rest }).running = false →
      Cursive.process_events interp mOn rOn (fuel + 1) c =
        some (true, interp k { c with cbQueue := rest })) := by
  constructor
  · intro e rest hp hrun hkill
    simp [Cursive.process_events, Cursive.process_event_loop,
      Cursive.poll_event, hp, hkill]
  · intro k rest hp hq hrun hkill
    simp [Cursive.process_events, Cursive.process_event_loop,
      Cursive.poll_event, hp, Cursive.process_cb_loop, Cursive.try_recv,
      hq, hkill]

/-- Witness for `process_events_stops_on_quit`: a callback queue whose first
entry quits makes `process_events` return `true` with the second queued
callback still pending. -/
theorem process_events_stops_on_quit_witness :
    ({ sampleC none 0 with cbQueue := [(), ()] } : Cursive Unit Unit).running
      = true ∧
    ((fun (_ : Unit) (s : Cursive Unit Unit) => Cursive.quit s) ()
      { { sampleC none 0 with cbQueue := [(), ()] } with cbQueue := [()] }).running
      = false ∧
    Cursive.process_events (fun _ s => Cursive.quit s) ignoreMenubar ignoreRoot 3
        { sampleC none 0 with cbQueue := [(), ()] } =
      some (true, (fun (_ : Unit) (s : Cursive Unit Unit) => Cursive.quit s) ()
        { { sampleC none 0 with cbQueue := [(), ()] } with cbQueue := [()] }) := by
  refine ⟨rfl, rfl, ?_⟩
  exact (process_events_stops_on_quit (fun _ s => Cursive.quit s) ignoreMenubar
    ignoreRoot 2 { sampleC none 0 with cbQueue := [(), ()] }).2 () [()]
    rfl rfl rfl rfl

/-- Helper: under callbacks that preserve `running` and both queues, the
callback drain loop of `process_events` empties the whole queue in FIFO
order, returning whether anything (here or before) was processed. -/
theorem process_cb_loop_drains {ρ κ : Type} (interp : CbInterp ρ κ)
    (hK : ∀ (k : κ) (s : Cursive ρ κ),
      (interp k s).running = s.running ∧
      (interp k s).backend.pending = s.backend.pending ∧
      (interp k s).cbQueue = s.cbQueue) :
    ∀ (fuel : Nat) (b : Bool) (c : Cursive ρ κ),
      c.running = true → c.cbQueue.length ≤ fuel →
      Cursive.process_cb_loop interp fuel b c =
        some (!b || !c.cbQueue.isEmpty,
          spec_drain_all_callbacks interp c.cbQueue c) := by
  intro fuel
  induction fuel with
  | zero =>
    intro b c hrun hlen
    have hq : c.cbQueue = [] := List.length_eq_zero.mp (Nat.le_zero.mp hlen)
    simp [Cursive.process_cb_loop, Cursive.try_recv, hq,
      spec_drain_all_callbacks]
  | succ n ih =>
    intro b c hrun hlen
    cases hq : c.cbQueue with
    | nil =>
      simp [Cursive.process_cb_loop, Cursive.try_recv, hq,
        spec_drain_all_callbacks]
    | cons k rest =>
      have hk := hK k { c with cbQueue := rest }
      have hrun2 : (interp k { c with cbQueue := rest }).running = true := by
        rw [hk.1]; exact hrun
      have hq2 : (interp k { c with cbQueue := rest }).cbQueue = rest := hk.2.2
      have hlen2 : (interp k { c with cbQueue := rest }).cbQueue.length ≤ n := by
        rw [hq2]
        have := hlen
        rw [hq] at this
        exact Nat.lt_succ_iff.mp this
      have hrec := ih false (interp k { c with cbQueue := rest }) hrun2 hlen2
      simp only [Cursive.process_cb_loop, Cursive.try_recv, hq, hrun2, if_true]
      rw [hrec, hq2]
      simp [spec_drain_all_callbacks, hq]

/-- Helper: dispatching a list of events through `on_event` leaves the
callback queue untouched when every dispatch preserves it. -/
theorem spec_dispatch_all_events_cbQueue {ρ κ : Type} (interp : CbInterp ρ κ)
    (mOn : MenubarHandler κ) (rOn : RootHandler ρ κ)
    (hE : ∀ (e : Event) (s : Cursive ρ κ),
      (Cursive.on_event interp mOn rOn e s).running = s.running ∧
      (Cursive.on_event interp mOn rOn e s).backend.pending = s.backend.pending ∧
      (Cursive.on_event interp mOn rOn e s).cbQueue = s.cbQueue) :
    ∀ (evs : List Event) (c : Cursive ρ κ),
      (spec_dispatch_all_events interp mOn rOn evs c).cbQueue = c.cbQueue := by
  intro evs
  induction evs with
  | nil => intro c; rfl
  | cons e rest ih =>
    intro c
    rw [spec_dispatch_all_events, ih]
    exact (hE e _).2.2

/-- Helper: under handlers and callbacks that preserve `running` and both
queues, the input loop of `process_events` dispatches every pending event in
arrival order and then drains the whole callback queue. -/
theorem process_event_loop_drains {ρ κ : Type} (interp : CbInterp ρ κ)
    (mOn : MenubarHandler κ) (rOn : RootHandler ρ κ)
    (hE : ∀ (e : Event) (s : Cursive ρ κ),
      (Cursive.on_event interp mOn rOn e s).running = s.running ∧
      (Cursive.on_event interp mOn rOn e s).backend.pending = s.backend.pending ∧
      (Cursive.on_event interp mOn rOn e s).cbQueue = s.cbQueue)
    (hK : ∀ (k : κ) (s : Cursive ρ κ),
      (interp k s).running = s.running ∧
      (interp k s).backend.pending = s.backend.pending ∧
      (interp k s).cbQueue = s.cbQueue) :
    ∀ (fuel : Nat) (b : Bool) (c : Cursive ρ κ),
      c.running = true →
      c.backend.pending.length + c.cbQueue.length ≤ fuel →
      Cursive.process_event_loop interp mOn rOn fuel b c =
        some (!b || !c.backend.pending.isEmpty || !c.cbQueue.isEmpty,
          spec_drain_all_callbacks interp
            (spec_dispatch_all_events interp mOn rOn c.backend.pending c).cbQueue
            (spec_dispatch_all_events interp mOn rOn c.backend.pending c)) := by
  intro fuel
  induction fuel with
  | zero =>
    intro b c hrun hlen
    have hp : c.backend.pending = [] :=
      List.length_eq_zero.mp (Nat.le_zero.mp (by omega))
    have hq : c.cbQueue = [] :=
      List.length_eq_zero.mp (Nat.le_zero.mp (by omega))
    simp only [Cursive.process_event_loop, Cursive.poll_event, hp]
    rw [process_cb_loop_drains interp hK 0 b c hrun (by rw [hq]; exact Nat.le_refl 0)]
    simp [hp, hq, spec_dispatch_all_events]
  | succ n ih =>
    intro b c hrun hlen
    cases hp : c.backend.pending with
    | nil =>
      simp only [Cursive.process_event_loop, Cursive.poll_event, hp]
      rw [process_cb_loop_drains interp hK (n + 1) b c hrun (by omega)]
      simp [hp, spec_dispatch_all_events]
    | cons e rest =>
      have he := hE e { c with backend := { c.backend with pending := rest } }
      have hrun2 :
          (Cursive.on_event interp mOn rOn e
            { c with backend := { c.backend with pending := rest } }).running
            = true := by
        rw [he.1]; exact hrun
      have hp2 :
          (Cursive.on_event interp mOn rOn e
            { c with backend := { c.backend with pending := rest } }).backend.pending
            = rest := he.2.1
      have hq2 :
          (Cursive.on_event interp mOn rOn e
            { c with backend := { c.backend with pending := rest } }).cbQueue
            = c.cbQueue := he.2.2
      have hlen2 :
          (Cursive.on_event interp mOn rOn e
            { c with backend := { c.backend with pending := rest } }).backend.pending.length
            + (Cursive.on_event interp mOn rOn e
                { c with backend := { c.backend with pending := rest } }).cbQueue.length
            ≤ n := by
        rw [hp2, hq2]
        rw [hp] at hlen
        simp [List.length_cons] at hlen
        omega
      have hrec := ih false _ hrun2 hlen2
      simp only [Cursive.process_event_loop, Cursive.poll_event, hp, hrun2, if_true]
      rw [hrec, hp2, hq2]
      simp [spec_dispatch_all_events, hp]

/-- Claim C5: `process_events` first dispatches every currently pending
backend input event, one at a time in arrival order, then drains every
currently queued cross-thread callback in FIFO order, and returns `true` iff
at least one event or callback was processed.  The hypotheses say that no
dispatched handler or callback quits or tampers with the two queues — the
normal-operation case; the early-quit case is `process_events_stops_on_quit`. -/
theorem process_events_drains_in_order {ρ κ : Type} (interp : CbInterp ρ κ)
    (mOn : MenubarHandler κ) (rOn : RootHandler ρ κ) (fuel : Nat)
    (c : Cursive ρ κ)
    (hE : ∀ (e : Event) (s : Cursive ρ κ),
      (Cursive.on_event interp mOn rOn e s).running = s.running ∧
      (Cursive.on_event interp mOn rOn e s).backend.pending = s.backend.pending ∧
      (Cursive.on_event interp mOn rOn e s).cbQueue = s.cbQueue)
    (hK : ∀ (k : κ) (s : Cursive ρ κ),
      (interp k s).running = s.running ∧
      (interp k s).backend.pending = s.backend.pending ∧
      (interp k s).cbQueue = s.cbQueue)
    (hrun : c.running = true)
    (hfuel : c.backend.pending.length + c.cbQueue.length ≤ fuel) :
    Cursive.process_events interp mOn rOn fuel c =
      some (!c.backend.pending.isEmpty || !c.cbQueue.isEmpty,
        spec_drain_all_callbacks interp c.cbQueue
          (spec_dispatch_all_events interp mOn rOn c.backend.pending c)) := by
  unfold Cursive.process_events
  rw [process_event_loop_drains interp mOn rOn hE hK fuel true c hrun hfuel]
  rw [spec_dispatch_all_events_cbQueue interp mOn rOn hE]
  simp

/-- Helper for the witness: the no-op sample handlers preserve `running` and
both queues through `on_event`. -/
theorem sample_on_event_preserves (e : Event) (s : Cursive Unit Unit) :
    (Cursive.on_event idInterp ignoreMenubar ignoreRoot e s).running = s.running ∧
    (Cursive.on_event idInterp ignoreMenubar ignoreRoot e s).backend.pending
      = s.backend.pending ∧
    (Cursive.on_event idInterp ignoreMenubar ignoreRoot e s).cbQueue = s.cbQueue := by
  unfold Cursive.on_event
  by_cases hg : Cursive.menubar_grab e s.menubar <;>
    simp [hg, ignoreMenubar, ignoreRoot, Cursive.processResult,
      Cursive.select_menubar, Menubar.take_focus]

/-- Witness for `process_events_drains_in_order`: one pending input event and
one queued callback are both processed and the call reports activity. -/
theorem process_events_drains_in_order_witness :
    ({ sampleC none 0 with
        backend := { pending := [Event.char 'a'], refreshCount := 0 },
        cbQueue := [()] } : Cursive Unit Unit).running = true ∧
    Cursive.process_events idInterp ignoreMenubar ignoreRoot 2
        { sampleC none 0 with
          backend := { pending := [Event.char 'a'], refreshCount := 0 },
          cbQueue := [()] } =
      some (true,
        spec_drain_all_callbacks idInterp [()]
          (spec_dispatch_all_events idInterp ignoreMenubar ignoreRoot
            [Event.char 'a']
            { sampleC none 0 with
              backend := { pending := [Event.char 'a'], refreshCount := 0 },
              cbQueue := [()] })) := by
  refine ⟨rfl, ?_⟩
  have h := process_events_drains_in_order idInterp ignoreMenubar ignoreRoot 2
    { sampleC none 0 with
      backend := { pending := [Event.char 'a'], refreshCount := 0 },
      cbQueue := [()] }
    (fun e s => sample_on_event_preserves e s)
    (fun k s => ⟨rfl, rfl, rfl⟩) rfl (by decide)
  simpa using h

/-- Helper: the `while running` loop returns its state unchanged, with no
further steps, as soon as the running flag is false. -/
theorem run_loop_not_running {ρ κ : Type} (interp : CbInterp ρ κ)
    (mOn : MenubarHandler κ) (rOn : RootHandler ρ κ) (fuelP : Nat) :
    ∀ (fuelR : Nat) (c : Cursive ρ κ), c.running = false →
      Cursive.run_loop interp mOn rOn fuelP fuelR c = some c := by
  intro fuelR c h
  cases fuelR <;> simp [Cursive.run_loop, h]

/-- Claim C9: `quit` sets the running flag to false and changes nothing else;
`run` steps exactly until the running flag is false and then returns; and
after dispatching a pending event whose (global) callback quits, `run`
returns with `is_running` false. -/
theorem run_until_quit {ρ κ : Type} (interp : CbInterp ρ κ)
    (mOn : MenubarHandler κ) (rOn : RootHandler ρ κ) :
    (∀ (c : Cursive ρ κ),
      (Cursive.quit c).running = false ∧
      (Cursive.quit c).root = c.root ∧
      (Cursive.quit c).menubar = c.menubar ∧
      (Cursive.quit c).backend = c.backend ∧
      (Cursive.quit c).cbQueue = c.cbQueue ∧
      (Cursive.quit c).userData = c.userData ∧
      (Cursive.quit c).fps = c.fps ∧
      (Cursive.quit c).boring_frame_count = c.boring_frame_count) ∧
    (∀ (fuelP fuelR : Nat) (c : Cursive ρ κ),
      c.running = false →
      Cursive.run_loop interp mOn rOn fuelP fuelR c = some c) ∧
    (∀ (fuelP fuelR : Nat) (c : Cursive ρ κ) (e : Event) (v' : ρ) (k : κ),
      c.backend.pending = [e] →
      Cursive.menubar_grab e c.menubar = false →
      c.menubar.receive_events = false →
      rOn (e.relativized 0 (if c.menubar.autohide then 0 else 1)) c.root =
        (v', EventResult.Consumed (some k)) →
      (∀ s, interp k s = Cursive.quit s) →
      ∃ cF, Cursive.run interp mOn rOn (fuelP + 1) (fuelR + 1) c = some cF ∧
        Cursive.is_running cF = false) := by
  refine ⟨fun c => ⟨rfl, rfl, rfl, rfl, rfl, rfl, rfl, rfl⟩,
    fun fuelP fuelR c h => run_loop_not_running interp mOn rOn fuelP fuelR c h,
    ?_⟩
  intro fuelP fuelR c e v' k hp hg hr hE hk
  refine ⟨Cursive.refresh (Cursive.quit
    { c with
        running := true
        boring_frame_count := 0
        backend := { pending := [], refreshCount := c.backend.refreshCount + 1 }
        root := v' }), ?_, rfl⟩
  simp [Cursive.run, Cursive.run_loop, Cursive.step, Cursive.process_events,
    Cursive.process_event_loop, Cursive.poll_event, Cursive.refresh, hp,
    Cursive.on_event, hg, hr, hE, Cursive.post_events, Cursive.quit, hk,
    run_loop_not_running interp mOn rOn (fuelP + 1) fuelR]

/-- Witness for `run_until_quit`: a pending `'q'` whose handling quits makes
`run` return with the running flag down; `quit` clears the flag; a stopped
loop returns its state unchanged. -/
theorem run_until_quit_witness :
    (∃ cF, Cursive.run (fun (_ : Unit) (s : Cursive Unit Unit) => Cursive.quit s)
        ignoreMenubar (fun _ v => (v, EventResult.Consumed (some ()))) 1 1
        { sampleC none 0 with
            backend := { pending := [Event.char 'q'], refreshCount := 0 } } =
          some cF ∧
      Cursive.is_running cF = false) ∧
    (Cursive.quit (sampleC none 0)).running = false ∧
    Cursive.run_loop (fun (_ : Unit) (s : Cursive Unit Unit) => Cursive.quit s)
        ignoreMenubar (fun _ v => (v, EventResult.Consumed (some ()))) 1 3
        (Cursive.quit (sampleC none 0)) = some (Cursive.quit (sampleC none 0)) := by
  have h := run_until_quit (fun (_ : Unit) (s : Cursive Unit Unit) => Cursive.quit s)
    ignoreMenubar (fun _ v => (v, EventResult.Consumed (some ())))
  exact ⟨h.2.2 0 0 _ (Event.char 'q') () () rfl rfl rfl rfl (fun s => rfl),
    (h.1 (sampleC none 0)).1,
    h.2.1 1 3 (Cursive.quit (sampleC none 0)) rfl⟩

end CursiveSpec
